import Mathlib

set_option autoImplicit false

namespace Ludoist

/-- JSON values as exchanged on the wire. Numeric values in this protocol are
integers (op codes, error codes, enum values, board coordinates), so the
numeric constructor carries an Int. Objects are ordered key-value lists,
mirroring Python dict insertion order. -/
inductive JSON where
  | null
  | bool (b : Bool)
  | int (n : Int)
  | str (s : String)
  | arr (items : List JSON)
  | obj (entries : List (String × JSON))

/-- Lookup of a key in an ordered key-value list (first occurrence). -/
def lookupEntry : List (String × JSON) → String → Option JSON
  | [], _ => none
  | (k, v) :: rest, key => if k = key then some v else lookupEntry rest key

/-- Python dict assignment d[k] = v: replaces the value in place when the key
is present, otherwise appends the new entry at the end (insertion order). -/
def dictSet : List (String × JSON) → String → JSON → List (String × JSON)
  | [], key, v => [(key, v)]
  | (k, w) :: rest, key, v =>
    if k = key then (k, v) :: rest else (k, w) :: dictSet rest key v

/-- Python subscript data[k] on a decoded JSON value: succeeds exactly when the
value is an object containing the key; every other subscript raises an
exception, which the callers in connection.py catch. -/
def jsonSubscript : JSON → String → Option JSON
  | .obj entries, key => lookupEntry entries key
  | _, _ => none

/-- Python dict.get(k, None) on a decoded JSON value. -/
def jsonGetD (j : JSON) (key : String) : JSON :=
  (jsonSubscript j key).getD JSON.null

/-- Constants of server/responses.py, lines 42-57. -/
def OP_CODE_ERROR : Int := 0

def OP_CODE_HELLO : Int := 1

def OP_CODE_PONG : Int := 2

def OP_CODE_LIST_GAMES : Int := 3

def OP_CODE_PING : Int := 20

def OP_CODE_REQUEST_GAMES : Int := 21

def ERR_UNKNOWN_ERROR : Int := 1000

def ERR_PING_TIMEOUT : Int := 1001

def ERR_UNPARSABLE_DATA : Int := 1002

def ERR_INVALID_DATA_FORMAT : Int := 1003

def ERR_GAMES_LISTING_FAILED : Int := 1004

/-- responses._make_message (lines 60-64): builds the message envelope. The
dict literal on line 61 already maps "d" to data (null when data is None); the
conditional on lines 62-63 then re-assigns the same value, so the "d" key is
present in every envelope. -/
def _make_message (op_code : Int) (data : Option JSON) : JSON :=
  let msg := [("op", JSON.int op_code), ("d", data.getD JSON.null)]
  let msg := match data with
    | some d => dictSet msg "d" d
    | none => msg
  JSON.obj msg

/-- responses.make_hello_message (lines 67-68). -/
def make_hello_message (ping_interval : Int) : JSON :=
  _make_message OP_CODE_HELLO (some (JSON.obj [("ping_interval", JSON.int ping_interval)]))

/-- responses.make_error_message (lines 70-71): the error_code parameter is
accepted but not placed into the outgoing payload, exactly as in the source. -/
def make_error_message (error_code : Int) (message : String) : JSON :=
  _make_message OP_CODE_ERROR (some (JSON.obj [("message", JSON.str message)]))

/-- responses.make_pong_message (lines 73-74). -/
def make_pong_message : JSON :=
  _make_message OP_CODE_PONG none

/-- Mutable per-connection state touched by Connection._inc_violation and
Connection._close: the violation counter, the timestamp of the last violation
(initialized to 0 in __init__ and never reassigned anywhere in the class), and
the running flag. Time is modelled in integer seconds. -/
structure ConnState where
  violations : Nat
  last_violation_at : Int
  running : Bool
deriving Repr, DecidableEq

/-- Connection.__init__ (lines 58-61): counter 0, last violation time 0,
running. -/
def connInit : ConnState :=
  { violations := 0, last_violation_at := 0, running := true }

/-- Connection._close (lines 165-168): flips the running flag; the socket close
and connection-table removal are external effects not represented in the
state. -/
def _close (s : ConnState) : ConnState :=
  { s with running := false }

/-- Connection._inc_violation (lines 66-75), statement by statement: increment
the counter; compute diff = now - last_violation_at; reset the counter to zero
when diff > 300; close the connection when diff < 300 and the (possibly reset)
counter exceeds 8. -/
def _inc_violation (s : ConnState) (now : Int) : ConnState :=
  let s1 := { s with violations := s.violations + 1 }
  let diff := now - s1.last_violation_at
  let s2 := if diff > 300 then { s1 with violations := 0 } else s1
  if diff < 300 ∧ s2.violations > 8 then _close s2 else s2

/-- common/enums.py GameState (IntEnum, values 0 to 3). -/
inductive GameState where
  | waiting
  | ready
  | running
  | ended
deriving Repr, DecidableEq

/-- Integer value of a GameState, as dumped by IntEnumField.value_dump. -/
def GameState.toInt : GameState → Int
  | .waiting => 0
  | .ready => 1
  | .running => 2
  | .ended => 3

/-- common/enums.py PieceColor (IntEnum, values 0 to 3). -/
inductive PieceColor where
  | red
  | green
  | yellow
  | blue
deriving Repr, DecidableEq

/-- Integer value of a PieceColor, as dumped by IntEnumField.value_dump. -/
def PieceColor.toInt : PieceColor → Int
  | .red => 0
  | .green => 1
  | .yellow => 2
  | .blue => 3

/-- common/games.py GameRules: allowed_players is constrained by
fields.Literal(2, 3, 4, default=2). -/
structure GameRules where
  allowed_players : Nat
deriving Repr, DecidableEq

/-- common/games.py GamePlayer, fields in schema declaration order. -/
structure GamePlayer where
  id : String
  token : Option String
  owner : Bool
  name : String
  piece_color : Option PieceColor
deriving Repr, DecidableEq

/-- common/games.py Game, fields in schema declaration order;
password_protected defaults to None and is only populated in overviews. -/
structure Game where
  id : String
  password : Option String
  name : String
  state : GameState
  rules : GameRules
  players : List GamePlayer
  board : List (List (List Int))
  password_protected : Option Bool
deriving Repr, DecidableEq

/-- Dump of an optional string field: null when absent. -/
def jsonOfOptStr : Option String → JSON
  | none => JSON.null
  | some s => JSON.str s

/-- Dump of an optional boolean field: null when absent. -/
def jsonOfOptBool : Option Bool → JSON
  | none => JSON.null
  | some b => JSON.bool b

/-- Dump of an optional piece color: null when absent, the enum value
otherwise. -/
def jsonOfOptColor : Option PieceColor → JSON
  | none => JSON.null
  | some c => JSON.int c.toInt

/-- GamePlayer.dump: the full dump of a player, fields in schema order. -/
def GamePlayer.dump (p : GamePlayer) : JSON :=
  JSON.obj [("id", JSON.str p.id), ("token", jsonOfOptStr p.token),
    ("owner", JSON.bool p.owner), ("name", JSON.str p.name),
    ("piece_color", jsonOfOptColor p.piece_color)]

/-- GamePlayer.get_public_view (games.py lines 61-63):
self.dump(exclude=["token"]). -/
def GamePlayer.get_public_view (p : GamePlayer) : JSON :=
  JSON.obj [("id", JSON.str p.id), ("owner", JSON.bool p.owner),
    ("name", JSON.str p.name), ("piece_color", jsonOfOptColor p.piece_color)]

/-- GameRules dumped through fields.Object. -/
def GameRules.dump (r : GameRules) : JSON :=
  JSON.obj [("allowed_players", JSON.int (r.allowed_players : Int))]

/-- Game.is_joinable (games.py lines 125-127):
len(self.players) < self.rules.allowed_players and
self.state in (GameState.ready, GameState.waiting). -/
def Game.is_joinable (g : Game) : Bool :=
  decide (g.players.length < g.rules.allowed_players) &&
    (g.state == GameState.ready || g.state == GameState.waiting)

/-- The entries produced by self.dump(exclude=["password", "players", "board"])
on a Game (games.py line 136): the remaining schema fields in declaration
order. -/
def Game.dump_exclude_password_players_board (g : Game) : List (String × JSON) :=
  [("id", JSON.str g.id), ("name", JSON.str g.name),
    ("state", JSON.int g.state.toInt), ("rules", g.rules.dump),
    ("password_protected", jsonOfOptBool g.password_protected)]

/-- Game.get_overview (games.py lines 133-139): dump without password, players
and board; then data["players"] = the public views; then
data["password_protected"] = (self.password is not None). -/
def Game.get_overview (g : Game) : JSON :=
  let players := g.players.map GamePlayer.get_public_view
  let data := g.dump_exclude_password_players_board
  let data := dictSet data "players" (JSON.arr players)
  let data := dictSet data "password_protected" (JSON.bool g.password.isSome)
  JSON.obj data

/-- The server game registry self._games: an id-keyed Python dict, modelled as
its ordered list of key-value entries. -/
abbrev Registry := List (String × Game)

/-- LudoistServer.list_games (server/__init__.py lines 61-63):
list(self._games.values()), insertion order. -/
def list_games (r : Registry) : List Game :=
  r.map Prod.snd

/-- LudoistServer.get_game (lines 65-67): self._games.get(game_id). -/
def get_game : Registry → String → Option Game
  | [], _ => none
  | (k, v) :: rest, gid => if k = gid then some v else get_game rest gid

/-- LudoistServer.add_game (lines 73-75): self._games[game.id] = game, the
Python dict assignment: replaces the stored value in place when the id is
present, appends a new entry otherwise. -/
def add_game (r : Registry) (g : Game) : Registry :=
  if r.any (fun e => decide (e.1 = g.id)) then
    r.map (fun e => if e.1 = g.id then (e.1, g) else e)
  else
    r ++ [(g.id, g)]

/-- LudoistServer.remove_game (lines 69-71): self._games.pop(game_id, None):
returns the stored game and removes its key when present (dict keys are
unique, so removal is modelled as filtering out the key), returns None and
leaves the registry unchanged otherwise. -/
def remove_game (r : Registry) (gid : String) : Option Game × Registry :=
  match get_game r gid with
  | none => (none, r)
  | some g => (some g, r.filter (fun e => !decide (e.1 = gid)))

/-- Outcome of Connection._process_packet: the messages handed to _send_data,
whether _inc_violation was invoked, and the returned pair — none stands for
the (-1, None) early returns. -/
structure PacketOutcome where
  sent : List JSON
  violated : Bool
  result : Option (JSON × JSON)

/-- Connection._process_packet (connection.py lines 81-101), taking the
outcome of packet.decode() followed by json.loads, with none for any raised
parse exception (the except on line 85 catches every exception). On parse
failure: send the unparsable-data error, count a violation, return (-1, None).
Otherwise data["op"] is subscripted; if that raises — data is not an object
carrying an "op" key — send the invalid-format error, count a violation,
return (-1, None). Otherwise return (op_code, data.get("d", None)); the op
code is returned whatever its JSON type, no integer check is made. -/
def _process_packet (parsed : Option JSON) : PacketOutcome :=
  match parsed with
  | none =>
    { sent := [make_error_message ERR_UNPARSABLE_DATA "data could not be parsed as JSON"],
      violated := true, result := none }
  | some data =>
    match jsonSubscript data "op" with
    | none =>
      { sent := [make_error_message ERR_INVALID_DATA_FORMAT "missing OP code"],
        violated := true, result := none }
    | some op_code =>
      { sent := [], violated := false, result := some (op_code, jsonGetD data "d") }

/-- Decoding behavior in the words of claim C6 as amended: bytes that do not
parse as JSON yield the unparsable-data ERROR envelope and a counted
violation; a parsed value on which the "op" subscript fails — not an object,
or no "op" key — yields the invalid-format ERROR envelope and a counted
violation; otherwise the value under "op", of whatever JSON type, and the
value under "d" (null when absent) are returned with nothing sent and no
violation. -/
def decode_spec (parsed : Option JSON) : PacketOutcome :=
  match parsed with
  | none =>
    { sent := [JSON.obj [("op", JSON.int 0),
        ("d", JSON.obj [("message", JSON.str "data could not be parsed as JSON")])]],
      violated := true, result := none }
  | some data =>
    match jsonSubscript data "op" with
    | none =>
      { sent := [JSON.obj [("op", JSON.int 0),
          ("d", JSON.obj [("message", JSON.str "missing OP code")])]],
        violated := true, result := none }
    | some op_code =>
      { sent := [], violated := false,
        result := some (op_code, (jsonSubscript data "d").getD JSON.null) }

/-- Whether a decoded value is an object carrying an integer under "op". -/
def hasIntOp (j : JSON) : Bool :=
  match jsonSubscript j "op" with
  | some (JSON.int _) => true
  | _ => false

/-- A Python exception escaping the handler uncaught; the only ones this file
needs are the AttributeErrors raised by accessing names the responses module
does not define. -/
inductive PyFault where
  | attributeError (missingName : String)
deriving Repr, DecidableEq

/-- Outcome of one successful pass of Connection._listen: messages handed to
_send_data, whether _inc_violation was invoked, whether the ping-received
event was set, and the registry after the pass. -/
structure ListenOutcome where
  sent : List JSON
  violated : Bool
  ping_received : Bool
  games : Registry

/-- Python == between a decoded JSON value and an int constant: true for an
equal int and for a bool whose Python integer value matches (True == 1);
false for every other value. -/
def jsonEqInt (j : JSON) (n : Int) : Bool :=
  match j with
  | .int m => decide (m = n)
  | .bool b => decide ((if b then (1 : Int) else 0) = n)
  | _ => false

/-- Dispatch of Connection._listen (connection.py lines 118-143) on a
successfully processed packet. op == OP_CODE_PING sets the ping-received
event. op == OP_CODE_REQUEST_GAMES reads the games list and then evaluates
responses.make_list_games_message, a name responses.py does not define, so an
AttributeError is raised. Any other op reaches the comparison with
responses.OP_CODE_CREATE_GAME on line 126, a name responses.py does not
define either, so an AttributeError is raised before the invalid-OP-code
reply on lines 141-143 can execute. -/
def listen_dispatch (op : JSON) (d : JSON) (reg : Registry) : Except PyFault ListenOutcome :=
  if jsonEqInt op OP_CODE_PING then
    .ok { sent := [], violated := false, ping_received := true, games := reg }
  else if jsonEqInt op OP_CODE_REQUEST_GAMES then
    .error (PyFault.attributeError "make_list_games_message")
  else
    .error (PyFault.attributeError "OP_CODE_CREATE_GAME")

/-- Connection._listen (connection.py lines 103-143) after a successful socket
recv: process the packet, stop on a processing error (op = -1), otherwise
dispatch on the op code. -/
def _listen (parsed : Option JSON) (reg : Registry) : Except PyFault ListenOutcome :=
  let p := _process_packet parsed
  match p.result with
  | none =>
    .ok { sent := p.sent, violated := p.violated, ping_received := false, games := reg }
  | some (op, d) =>
    match listen_dispatch op d reg with
    | .error f => .error f
    | .ok o => .ok { o with sent := p.sent ++ o.sent, violated := p.violated || o.violated }

/-- common/games.py line 40: INITIAL_BOARD, four color lists of four piece
positions, every position the yard coordinate [-1, -1]. -/
def INITIAL_BOARD : List (List (List Int)) :=
  List.replicate 4 (List.replicate 4 [-1, -1])

/-- Conversion of a JSON value to an integer, for loading board entries. -/
def jsonToInt : JSON → Option Int
  | .int n => some n
  | _ => none

/-- Conversion of a JSON array through an element converter. -/
def jsonToListOf (α : Type) (f : JSON → Option α) : JSON → Option (List α)
  | .arr items => items.mapM f
  | _ => none

/-- Loading of the Game.board field (games.py line 94): a payload without a
"board" key takes the default INITIAL_BOARD; a present value must be a list
of lists of lists of integers and is checked by validate.Length(exact=4). -/
def load_board (payload : JSON) : Option (List (List (List Int))) :=
  match jsonSubscript payload "board" with
  | none => some INITIAL_BOARD
  | some j =>
    match jsonToListOf (List (List Int))
        (jsonToListOf (List Int) (jsonToListOf Int jsonToInt)) j with
    | none => none
    | some b => if b.length = 4 then some b else none

/-- A concrete game used to build evaluation inputs. -/
def sampleGame : Game :=
  { id := "a", password := none, name := "Alpha", state := GameState.waiting,
    rules := { allowed_players := 2 }, players := [], board := INITIAL_BOARD,
    password_protected := none }

/-- A concrete player holding a session token. -/
def samplePlayer : GamePlayer :=
  { id := "p1", token := some "secret-token-1", owner := true,
    name := "Player One", piece_color := some PieceColor.red }

/-- A concrete game with id "b" and one player. -/
def gameB : Game :=
  { sampleGame with id := "b", name := "Bravo", players := [samplePlayer] }

/-- A concrete game sharing the id of gameB but differing in name. -/
def gameB2 : Game :=
  { sampleGame with id := "b", name := "Bravo Two" }

/-- A concrete one-entry registry. -/
def registry1 : Registry :=
  [("a", sampleGame)]

/-- A concrete full game: two players with two allowed players. -/
def gameFull : Game :=
  { sampleGame with
    players := [samplePlayer, { samplePlayer with id := "p2", token := none }] }

/-- A concrete password-protected game with one player. -/
def gameSecret : Game :=
  { sampleGame with password := some "hunter2", players := [samplePlayer] }

/-- A concrete password-protected game with id "c". -/
def gameC1 : Game :=
  { sampleGame with id := "c", password := some "pw-one" }

/-- A concrete game identical to gameC1 except for its password value. -/
def gameC2 : Game :=
  { sampleGame with id := "c", password := some "pw-two" }

/-- C1: the envelope built by _make_message contains the key "d" for every op
code, mapped to null when the payload is absent; in particular the PONG reply
is the object with entries op = 2 and d = null, not the object with the single
entry op = 2 that the claim describes. When a payload is present the envelope
maps op to the op code and d to the payload. -/
theorem C1_envelope_always_contains_d :
    make_pong_message = JSON.obj [("op", JSON.int 2), ("d", JSON.null)] ∧
    (∀ op : Int, _make_message op none = JSON.obj [("op", JSON.int op), ("d", JSON.null)]) ∧
    (∀ (op : Int) (p : JSON), _make_message op (some p) = JSON.obj [("op", JSON.int op), ("d", p)]) := by
  refine ⟨rfl, fun op => rfl, fun op p => ?_⟩
  simp [_make_message, dictSet]

/-- C2: violation accounting at the failing input: with 5 prior violations last
recorded at time 1000, a violation recorded at time 1400 (gap 400, exceeding
300) leaves the counter at 0 — the code increments to 6 and only then resets —
and leaves last_violation_at at 1000, since the code never updates it; the
claim expects the counter reset before incrementing (final value 1) and the
last-violation time updated to 1400. -/
theorem C2_inc_violation_failing_input :
    _inc_violation { violations := 5, last_violation_at := 1000, running := true } 1400
      = { violations := 0, last_violation_at := 1000, running := true } := by
  decide

/-- C3: nine violations within nine seconds, starting from the initial
connection state, leave the connection running with a zero counter: the gap is
always measured against the never-updated last_violation_at = 0, so it always
exceeds 300, the counter is reset to zero on every call, and the force-close
branch never fires; the claim expects the connection closed on the ninth. -/
theorem C3_nine_quick_violations_do_not_close :
    ([1000000000, 1000000001, 1000000002, 1000000003, 1000000004, 1000000005,
      1000000006, 1000000007, 1000000008] : List Int).foldl _inc_violation connInit
      = { violations := 0, last_violation_at := 0, running := true } := by
  decide

/-- C4: handling a CREATE_GAME request with an invalid allowed_players value
(here 5) does not produce the claimed ERROR reply carrying validation detail:
the comparison op == responses.OP_CODE_CREATE_GAME on line 126 raises an
uncaught AttributeError, since responses.py defines no OP_CODE_CREATE_GAME,
so the request cannot even be recognized; no outcome — and in particular no
registry mutation and no reply — is produced. -/
theorem C4_create_game_request_raises_attribute_error :
    ∀ reg : Registry,
      _listen (some (JSON.obj [("op", JSON.int 22),
        ("d", JSON.obj [("name", JSON.str "Room A"), ("players", JSON.arr []),
          ("rules", JSON.obj [("allowed_players", JSON.int 5)])])])) reg
        = Except.error (PyFault.attributeError "OP_CODE_CREATE_GAME") :=
  fun _ => rfl

/-- C5: a successfully decoded message whose op code is none of the recognized
client op codes — here op 0 — does not receive the invalid-OP-code ERROR
reply and does not get a violation counted: the handler raises an uncaught
AttributeError when evaluating responses.OP_CODE_CREATE_GAME on line 126,
which responses.py does not define, before the reply on lines 141-143 can
execute. -/
theorem C5_unknown_op_raises_attribute_error :
    ∀ reg : Registry,
      _listen (some (JSON.obj [("op", JSON.int 0)])) reg
        = Except.error (PyFault.attributeError "OP_CODE_CREATE_GAME") :=
  fun _ => rfl

/-- C6 counterexample: the parsed value with entry op = true lacks an integer
"op" field, yet _process_packet sends no invalid-format ERROR and counts no
violation: it returns the boolean op code unchanged, refuting the claim that
a parsed message lacking an integer "op" field yields an invalid-format ERROR
reply and a counted violation. -/
theorem C6_counterexample_non_integer_op :
    hasIntOp (JSON.obj [("op", JSON.bool true)]) = false ∧
    _process_packet (some (JSON.obj [("op", JSON.bool true)])) =
      { sent := [], violated := false,
        result := some (JSON.bool true, JSON.null) } :=
  ⟨rfl, rfl⟩

/-- C6 (amended): packet decoding never raises an unhandled fault and equals,
on every input, the decoding described by the amended claim: a byte sequence
that does not parse as JSON yields the unparsable-data ERROR envelope and a
counted violation; a parsed value on which the "op" subscript fails — not an
object, or no "op" key — yields the invalid-format ERROR envelope and a
counted violation; otherwise the value under "op", of whatever JSON type, and
the value under "d" (null when absent) are returned with no error and no
violation. -/
theorem C6_process_packet_eq_decode_spec :
    ∀ parsed : Option JSON, _process_packet parsed = decode_spec parsed := by
  intro parsed
  match parsed with
  | none => rfl
  | some data =>
    simp only [_process_packet, decode_spec, jsonGetD]
    cases jsonSubscript data "op" <;> rfl

/-- C7: a game overview carries no password entry and no board entry, carries
password_protected = (the password is set), lists exactly the public views of
the players, every public view carries no token entry, and two games that
agree on every field except their set passwords have equal overviews. -/
theorem C7_overview_properties :
    ∀ g g1 g2 : Game,
      jsonSubscript g.get_overview "password" = none ∧
      jsonSubscript g.get_overview "board" = none ∧
      jsonSubscript g.get_overview "password_protected"
        = some (JSON.bool g.password.isSome) ∧
      jsonSubscript g.get_overview "players"
        = some (JSON.arr (g.players.map GamePlayer.get_public_view)) ∧
      (∀ p : GamePlayer, jsonSubscript p.get_public_view "token" = none) ∧
      (g1.id = g2.id → g1.name = g2.name → g1.state = g2.state →
        g1.rules = g2.rules → g1.players = g2.players → g1.board = g2.board →
        g1.password_protected = g2.password_protected →
        g1.password ≠ none → g2.password ≠ none →
        g1.get_overview = g2.get_overview) := by
  intro g g1 g2
  refine ⟨rfl, rfl, rfl, rfl, fun p => rfl, ?_⟩
  intro hid hname hstate hrules hplayers hboard hpp hp1 hp2
  simp only [Game.get_overview, Game.dump_exclude_password_players_board]
  rw [hid, hname, hstate, hrules, hplayers, hpp,
    Option.ne_none_iff_isSome.mp hp1, Option.ne_none_iff_isSome.mp hp2]

/-- C7 witness: the overview of a concrete password-protected game has no
password and no board entry, reports password_protected = true, lists the
public view of its player, that view has no token entry, and two concrete
games differing only in their set passwords have equal overviews. -/
theorem C7_witness :
    jsonSubscript gameSecret.get_overview "password" = none ∧
    jsonSubscript gameSecret.get_overview "board" = none ∧
    jsonSubscript gameSecret.get_overview "password_protected"
      = some (JSON.bool true) ∧
    jsonSubscript gameSecret.get_overview "players"
      = some (JSON.arr [samplePlayer.get_public_view]) ∧
    jsonSubscript samplePlayer.get_public_view "token" = none ∧
    gameC1.get_overview = gameC2.get_overview := by
  obtain ⟨h1, h2, h3, h4, h5, h6⟩ := C7_overview_properties gameSecret gameC1 gameC2
  exact ⟨h1, h2, h3, h4, h5 samplePlayer,
    h6 rfl rfl rfl rfl rfl rfl rfl (by decide) (by decide)⟩

/-- C8: is_joinable holds exactly when the player count is strictly below
allowed_players and the state is waiting or ready; in particular, for every
allowed_players value in 2, 3, 4, a game whose player count equals
allowed_players is not joinable. -/
theorem C8_is_joinable_iff :
    ∀ g : Game,
      (g.is_joinable = true ↔
        (g.players.length < g.rules.allowed_players ∧
          (g.state = GameState.waiting ∨ g.state = GameState.ready))) ∧
      (g.rules.allowed_players ∈ ([2, 3, 4] : List Nat) →
        g.players.length = g.rules.allowed_players → g.is_joinable = false) := by
  intro g
  constructor
  · simp [Game.is_joinable, or_comm]
  · intro _ hlen
    simp [Game.is_joinable, hlen]

/-- C8 witness: a concrete game with two players and allowed_players = 2 is
not joinable. -/
theorem C8_witness : gameFull.is_joinable = false :=
  (C8_is_joinable_iff gameFull).2 (by decide) rfl

/-- Lookup after an in-place replacement of the key gid finds the new value
exactly when the key was present. -/
theorem get_game_map_replace (g : Game) :
    ∀ r : Registry,
      get_game (r.map (fun e => if e.1 = g.id then (e.1, g) else e)) g.id
        = if r.any (fun e => decide (e.1 = g.id)) then some g else none := by
  intro r
  induction r with
  | nil => rfl
  | cons e rest ih =>
    obtain ⟨k, v⟩ := e
    by_cases h : k = g.id
    · subst h
      rw [List.map_cons, if_pos rfl]
      simp [get_game]
    · rw [List.map_cons, if_neg h, List.any_cons,
        show decide (k = g.id) = false from decide_eq_false h, Bool.false_or]
      simp [get_game, h, ih]

/-- Membership of a key is unchanged by an in-place value replacement. -/
theorem any_map_replace (g : Game) (gid : String) :
    ∀ r : Registry,
      (r.map (fun e => if e.1 = g.id then (e.1, g) else e)).any
          (fun e => decide (e.1 = gid))
        = r.any (fun e => decide (e.1 = gid)) := by
  intro r
  induction r with
  | nil => rfl
  | cons e rest ih =>
    obtain ⟨k, v⟩ := e
    by_cases h : k = g.id <;> simp [h, ih]

/-- Replacing the value at a key twice equals replacing it with the second
value once, when the two keys agree. -/
theorem map_replace_map_replace (g g2 : Game) (hid : g2.id = g.id) (r : Registry) :
    (r.map (fun e => if e.1 = g.id then (e.1, g) else e)).map
        (fun e => if e.1 = g2.id then (e.1, g2) else e)
      = r.map (fun e => if e.1 = g2.id then (e.1, g2) else e) := by
  rw [List.map_map]
  refine List.map_congr_left fun e _ => ?_
  by_cases h : e.1 = g.id
  · simp [Function.comp, h, hid]
  · simp [Function.comp, h, hid]

/-- Replacement at a key absent from the registry changes nothing. -/
theorem map_replace_of_no_key (g : Game) :
    ∀ r : Registry, (∀ e ∈ r, e.1 ≠ g.id) →
      r.map (fun e => if e.1 = g.id then (e.1, g) else e) = r := by
  intro r
  induction r with
  | nil => exact fun _ => rfl
  | cons e rest ih =>
    intro h
    obtain ⟨k, v⟩ := e
    have hk : k ≠ g.id := h (k, v) (by simp)
    simp only [List.map_cons, if_neg hk]
    rw [ih fun e he => h e (by simp [he])]

/-- A lookup returns none exactly when no entry carries the key. -/
theorem get_game_eq_none_iff (gid : String) :
    ∀ r : Registry, get_game r gid = none ↔ ∀ e ∈ r, e.1 ≠ gid := by
  intro r
  induction r with
  | nil => simp [get_game]
  | cons e rest ih =>
    obtain ⟨k, v⟩ := e
    by_cases h : k = gid <;> simp [get_game, h, ih]

/-- Lookup skips a prefix whose entries all carry other keys. -/
theorem get_game_append_of_no_key (gid : String) :
    ∀ (r l : Registry), (∀ e ∈ r, e.1 ≠ gid) →
      get_game (r ++ l) gid = get_game l gid := by
  intro r l
  induction r with
  | nil => exact fun _ => rfl
  | cons e rest ih =>
    intro h
    obtain ⟨k, v⟩ := e
    have hk : k ≠ gid := h (k, v) (by simp)
    simp only [List.cons_append, get_game, if_neg hk]
    exact ih fun e he => h e (by simp [he])

/-- Lookup of a key after filtering that key out returns none. -/
theorem get_game_filter_ne (gid : String) :
    ∀ r : Registry,
      get_game (r.filter (fun e => !decide (e.1 = gid))) gid = none
  | [] => rfl
  | (k, v) :: rest => by
    have ih := get_game_filter_ne gid rest
    by_cases h : k = gid
    · simp [List.filter_cons, h, ih]
    · simp [List.filter_cons, h, get_game, ih]

/-- Filtering a key out of a registry that does not hold it changes
nothing. -/
theorem filter_ne_of_no_key (gid : String) :
    ∀ r : Registry, (∀ e ∈ r, e.1 ≠ gid) →
      r.filter (fun e => !decide (e.1 = gid)) = r
  | [], _ => rfl
  | (k, v) :: rest, h => by
    have hk : k ≠ gid := h (k, v) (by simp)
    have ih := filter_ne_of_no_key gid rest fun e he => h e (by simp [he])
    simp [List.filter_cons, hk, ih]

/-- A false key-membership test means every entry carries another key. -/
theorem any_eq_false_keys (gid : String) (r : Registry)
    (h : ¬r.any (fun e => decide (e.1 = gid)) = true) :
    ∀ e ∈ r, e.1 ≠ gid := by
  intro e he hek
  exact h (List.any_eq_true.mpr ⟨e, he, by simp [hek]⟩)

/-- C9: the registry operations: add_game is an idempotent upsert keyed by the
game id — adding the same game twice equals adding it once, and a later add
with the same id replaces the earlier entry; after add_game the id looks up
the added game; remove_game returns the stored game and removes it when the
id is present, and returns none leaving the registry unchanged otherwise;
list_games of a registry extended with a fresh id appends the new game at the
end of the insertion order. -/
theorem C9_registry_operations :
    ∀ (r : Registry) (g g2 : Game) (gid : String) (gm : Game),
      add_game (add_game r g) g = add_game r g ∧
      (g2.id = g.id → add_game (add_game r g) g2 = add_game r g2) ∧
      get_game (add_game r g) g.id = some g ∧
      (get_game r gid = some gm →
        (remove_game r gid).1 = some gm ∧
        get_game (remove_game r gid).2 gid = none) ∧
      (get_game r gid = none → remove_game r gid = (none, r)) ∧
      (get_game r g.id = none →
        list_games (add_game r g) = list_games r ++ [g]) := by
  intro r g g2 gid gm
  refine ⟨?_, ?_, ?_, ?_, ?_, ?_⟩
  · by_cases h : r.any (fun e => decide (e.1 = g.id)) = true
    · have e1 : add_game r g = r.map (fun e => if e.1 = g.id then (e.1, g) else e) := by
        rw [add_game, if_pos h]
      rw [e1, add_game, if_pos ((any_map_replace g g.id r).trans h)]
      exact map_replace_map_replace g g rfl r
    · have hall := any_eq_false_keys g.id r h
      have hcond : ((r ++ [(g.id, g)]).any fun e => decide (e.1 = g.id)) = true := by
        simp [List.any_append]
      have e1 : add_game r g = r ++ [(g.id, g)] := by rw [add_game, if_neg h]
      rw [e1, add_game, if_pos hcond, List.map_append, map_replace_of_no_key g r hall]
      simp
  · intro hid
    by_cases h : r.any (fun e => decide (e.1 = g.id)) = true
    · have h2 : r.any (fun e => decide (e.1 = g2.id)) = true := by rw [hid]; exact h
      have e1 : add_game r g = r.map (fun e => if e.1 = g.id then (e.1, g) else e) := by
        rw [add_game, if_pos h]
      have e2 : add_game r g2 = r.map (fun e => if e.1 = g2.id then (e.1, g2) else e) := by
        rw [add_game, if_pos h2]
      rw [e1, e2, add_game, if_pos ((any_map_replace g g2.id r).trans h2)]
      exact map_replace_map_replace g g2 hid r
    · have hall := any_eq_false_keys g.id r h
      have hall2 : ∀ e ∈ r, e.1 ≠ g2.id := fun e he => by rw [hid]; exact hall e he
      have h2 : ¬r.any (fun e => decide (e.1 = g2.id)) = true := by rw [hid]; exact h
      have hcond : ((r ++ [(g.id, g)]).any fun e => decide (e.1 = g2.id)) = true := by
        simp [List.any_append, hid]
      have e1 : add_game r g = r ++ [(g.id, g)] := by rw [add_game, if_neg h]
      have e2 : add_game r g2 = r ++ [(g2.id, g2)] := by rw [add_game, if_neg h2]
      rw [e1, e2, add_game, if_pos hcond, List.map_append, map_replace_of_no_key g2 r hall2]
      simp [hid]
  · by_cases h : r.any (fun e => decide (e.1 = g.id)) = true
    · rw [add_game, if_pos h, get_game_map_replace g r, if_pos h]
    · rw [add_game, if_neg h,
        get_game_append_of_no_key g.id r [(g.id, g)] (any_eq_false_keys g.id r h)]
      simp [get_game]
  · intro hm
    constructor
    · simp [remove_game, hm]
    · simp only [remove_game, hm]
      exact get_game_filter_ne gid r
  · intro hn
    simp only [remove_game, hn]
  · intro hn
    have hall := (get_game_eq_none_iff g.id r).mp hn
    have h : ¬r.any (fun e => decide (e.1 = g.id)) = true := by
      intro hc
      obtain ⟨e, he, hek⟩ := List.any_eq_true.mp hc
      exact hall e he (by simpa using hek)
    rw [add_game, if_neg h]
    simp [list_games]

/-- C9 witness: the registry laws evaluated on a concrete one-entry registry
and concrete games: double add of gameB collapses, adding gameB2 over gameB
replaces it, lookup after add finds gameB, removing the present id "a"
returns the stored game and empties its slot, removing the absent id "z"
changes nothing, and adding the fresh id "b" appends to the listing. -/
theorem C9_witness :
    add_game (add_game registry1 gameB) gameB = add_game registry1 gameB ∧
    add_game (add_game registry1 gameB) gameB2 = add_game registry1 gameB2 ∧
    get_game (add_game registry1 gameB) gameB.id = some gameB ∧
    ((remove_game registry1 "a").1 = some sampleGame ∧
      get_game (remove_game registry1 "a").2 "a" = none) ∧
    remove_game registry1 "z" = (none, registry1) ∧
    list_games (add_game registry1 gameB) = list_games registry1 ++ [gameB] := by
  obtain ⟨h1, h2, h3, h4, _, h6⟩ :=
    C9_registry_operations registry1 gameB gameB2 "a" sampleGame
  obtain ⟨_, _, _, _, h5, _⟩ :=
    C9_registry_operations registry1 gameB gameB2 "z" sampleGame
  exact ⟨h1, h2 rfl, h3, h4 rfl, h5 rfl, h6 rfl⟩

/-- C10: a game payload that omits the "board" key loads the default initial
board: exactly 4 color lists, each holding 4 piece positions, every position
equal to [-1, -1]. -/
theorem C10_default_board :
    ∀ payload : JSON, jsonSubscript payload "board" = none →
      load_board payload = some INITIAL_BOARD ∧
      INITIAL_BOARD.length = 4 ∧
      ∀ color ∈ INITIAL_BOARD, color.length = 4 ∧
        ∀ pos ∈ color, pos = [-1, -1] := by
  intro payload h
  exact ⟨by simp [load_board, h], by decide, by decide⟩

/-- C10 witness: a concrete payload without a "board" key loads the default
initial board. -/
theorem C10_witness :
    load_board (JSON.obj [("name", JSON.str "Room A")]) = some INITIAL_BOARD :=
  (C10_default_board (JSON.obj [("name", JSON.str "Room A")]) rfl).1

end Ludoist
